import Mathlib

/-!
Shallow embedding of `server/FwmarkServer.cpp` (the fwmark command server):
the message framing, the per-command decision engine in
`FwmarkServer::processClient`, and the marker write-back.

External collaborators (`NetworkController`, the traffic-tag library, the
event listener) are out of scope of the source file and are abstracted as
an environment of uninterpreted functions.  Kernel socket-option calls on
the received descriptor are modelled by a `SockState` record holding the
outcome of each `getsockopt`/`setsockopt`, and the observable calls made
during one request are collected in an effect trace.
-/

namespace FwmarkServer

/-- NETID_UNSET from `netd_resolv/resolv.h` (the header is outside the
source tree; its value is the all-zero network id). -/
def NETID_UNSET : Nat := 0

/-- Modelled from the spec: the `Permission` bitmask (NONE, NETWORK, SYSTEM)
from the permission header, which is outside the source tree.  NONE is the
empty mask, NETWORK one bit, SYSTEM the mask containing NETWORK. -/
def PERMISSION_NONE : Nat := 0

/-- Modelled from the spec: the NETWORK permission bit. -/
def PERMISSION_NETWORK : Nat := 1

/-- Modelled from the spec: the SYSTEM permission mask (includes NETWORK). -/
def PERMISSION_SYSTEM : Nat := 3

/-- Linux errno EPERM. -/
def EPERM : Int := 1

/-- Linux errno EBADF. -/
def EBADF : Int := 9

/-- Linux errno EPROTO. -/
def EPROTO : Int := 71

/-- Linux errno EBADMSG. -/
def EBADMSG : Int := 74

/-- Linux errno EAFNOSUPPORT. -/
def EAFNOSUPPORT : Int := 97

/-- Linux errno ESHUTDOWN. -/
def ESHUTDOWN : Int := 108

/-- Linux AF_INET6 address-family constant. -/
def AF_INET6 : Int := 10

/-- Linux IPPROTO_UDP protocol number. -/
def IPPROTO_UDP : Int := 17

/-- Command identifiers of `FwmarkCommand::CmdId`; `UNKNOWN` stands for any
value outside the enumeration (the `default` branch of the dispatch). -/
inductive CmdId where
  | ON_ACCEPT
  | ON_CONNECT
  | ON_SENDMMSG
  | ON_SENDMSG
  | ON_SENDTO
  | SELECT_NETWORK
  | PROTECT_FROM_VPN
  | SELECT_FOR_USER
  | QUERY_USER_ACCESS
  | ON_CONNECT_COMPLETE
  | TAG_SOCKET
  | UNTAG_SOCKET
  | UNKNOWN
  deriving DecidableEq, Repr, Fintype

/-- The fixed-layout request body `FwmarkCommand`. -/
structure FwmarkCommand where
  cmdId : CmdId
  uid : Nat
  netId : Nat
  trafficCtrlInfo : Nat
  deriving DecidableEq, Repr

/-- The optional trailer `FwmarkConnectInfo`.  Of the sockaddr union the
engine inspects only the IPv6 scope id and whether the destination address
is link-local, so the embedding records exactly those observations. -/
structure FwmarkConnectInfo where
  sin6ScopeId : Nat
  sin6AddrLinkLocal : Bool
  connErrno : Int
  latencyMs : Nat
  deriving DecidableEq, Repr

/-- The socket marker `Fwmark`: the four fields read and rewritten by the
engine (netId, explicitlySelected, protectedFromVpn, permission), packed
into the kernel's SO_MARK integer by the codec. -/
structure Fwmark where
  netId : Nat
  explicitlySelected : Bool
  protectedFromVpn : Bool
  permission : Nat
  deriving DecidableEq, Repr

/-- Observable calls the engine makes during one request: the socket-option
reads and the single write of the whole marker, plus the collaborator calls
whose absence the spec promises on some paths. -/
inductive Effect where
  | getDomain
  | getMark
  | getProtocol
  | setMark (mark : Fwmark)
  | checkAccess (uid netId : Nat)
  | tagSocket (trafficCtrlInfo uid callerUid : Nat)
  | untagSocket
  | connectEvent (netId : Nat) (connErrno : Int) (latencyMs uid : Nat)
  deriving DecidableEq, Repr

/-- Outcome of `ReceiveFileDescriptorVector`: an I/O error (errno) or a
successful read of `len` bytes. -/
inductive RecvResult where
  | err (errno : Int)
  | ok (len : Nat)
  deriving DecidableEq, Repr

/-- One client request as the engine sees it: caller uid, the receive
outcome, the decoded command and trailer, and the ancillary descriptors. -/
structure Request where
  clientUid : Nat
  recv : RecvResult
  command : FwmarkCommand
  connectInfo : FwmarkConnectInfo
  receivedFds : List Int
  deriving Repr

/-- Kernel-side state of the passed socket: outcome of each socket-option
call the engine may issue (SO_DOMAIN, SO_MARK read, SO_PROTOCOL, SO_MARK
write).  An `Except.error e` / `some e` is a failing call with errno `e`. -/
structure SockState where
  domain : Except Int Int
  mark : Except Int Fwmark
  protocol : Except Int Int
  setMarkErrno : Option Int

/-- The collaborators of `FwmarkServer::processClient` (NetworkController,
traffic-tag library, event reporter) together with the redirect-mode flag
read once at construction, as uninterpreted data. -/
structure Env where
  redirectSocketCalls : Bool
  getPermissionForUser : Nat → Nat
  checkUserNetworkAccess : Nat → Nat → Int
  canProtect : Nat → Bool
  getNetworkForInterface : Nat → Nat
  getNetworkForConnect : Nat → Nat
  getDefaultNetwork : Nat
  isVirtualNetwork : Nat → Bool
  getNetworkForUser : Nat → Nat
  tagSocket : Nat → Nat → Nat → Int
  untagSocket : Int
  hasNetdEventListener : Bool
  isSupportedFamily : Int → Bool

/-- sizeof(FwmarkCommand): four 32-bit fields. -/
def sizeofCommand : Nat := 16

/-- sizeof(FwmarkConnectInfo): the v4/v6 sockaddr union plus two 32-bit
fields. -/
def sizeofConnectInfo : Nat := 36

/-- `hasDestinationAddress` from FwmarkServer.cpp: which commands carry a
`FwmarkConnectInfo` trailer, depending on the redirect-socket-calls mode. -/
def hasDestinationAddress (cmdId : CmdId) (redirectSocketCalls : Bool) : Bool :=
  if redirectSocketCalls then
    (cmdId == CmdId.ON_SENDTO || cmdId == CmdId.ON_CONNECT ||
     cmdId == CmdId.ON_SENDMSG || cmdId == CmdId.ON_SENDMMSG ||
     cmdId == CmdId.ON_CONNECT_COMPLETE)
  else
    (cmdId == CmdId.ON_CONNECT || cmdId == CmdId.ON_CONNECT_COMPLETE)

/-- The per-command switch of `processClient` (lines 161-320).  An
`Except.error (status, effs)` is an early `return status`; an
`Except.ok (fwmark, permission, effs)` falls through the switch to the
common marker write-back, carrying the updated local variables. -/
def dispatch (env : Env) (clientUid : Nat) (command : FwmarkCommand)
    (connectInfo : FwmarkConnectInfo) (family : Int) (fwmark : Fwmark)
    (permission : Nat) (sock : SockState) :
    Except (Int × List Effect) (Fwmark × Nat × List Effect) :=
  match command.cmdId with
  | CmdId.ON_ACCEPT =>
      Except.ok (fwmark, permission ||| fwmark.permission, [])
  | CmdId.ON_CONNECT =>
      if !fwmark.explicitlySelected then
        if family == AF_INET6 && connectInfo.sin6ScopeId != 0 &&
            connectInfo.sin6AddrLinkLocal then
          Except.ok ({ fwmark with
            netId := env.getNetworkForInterface connectInfo.sin6ScopeId },
            permission, [])
        else if !fwmark.protectedFromVpn then
          Except.ok ({ fwmark with
            netId := env.getNetworkForConnect clientUid }, permission, [])
        else if !env.isVirtualNetwork fwmark.netId then
          Except.ok ({ fwmark with netId := env.getDefaultNetwork },
            permission, [])
        else
          Except.ok (fwmark, permission, [])
      else
        Except.ok (fwmark, permission, [])
  | CmdId.ON_CONNECT_COMPLETE =>
      match sock.protocol with
      | Except.error _ => Except.ok (fwmark, permission, [Effect.getProtocol])
      | Except.ok socketProto =>
          if socketProto == IPPROTO_UDP then
            Except.ok (fwmark, permission, [Effect.getProtocol])
          else if env.hasNetdEventListener then
            Except.ok (fwmark, permission,
              [Effect.getProtocol,
               Effect.connectEvent fwmark.netId connectInfo.connErrno
                 connectInfo.latencyMs clientUid])
          else
            Except.ok (fwmark, permission, [Effect.getProtocol])
  | CmdId.ON_SENDMMSG => Except.error (0, [])
  | CmdId.ON_SENDMSG => Except.error (0, [])
  | CmdId.ON_SENDTO => Except.error (0, [])
  | CmdId.SELECT_NETWORK =>
      if command.netId == NETID_UNSET then
        Except.ok ({ fwmark with
                     netId := command.netId
                     explicitlySelected := false
                     protectedFromVpn := false },
          PERMISSION_NONE, [])
      else
        let ret := env.checkUserNetworkAccess clientUid command.netId
        if ret != 0 then
          Except.error (ret, [Effect.checkAccess clientUid command.netId])
        else
          Except.ok ({ fwmark with
                       netId := command.netId
                       explicitlySelected := true
                       protectedFromVpn := env.canProtect clientUid },
            permission, [Effect.checkAccess clientUid command.netId])
  | CmdId.PROTECT_FROM_VPN =>
      if !env.canProtect clientUid then
        Except.error (-EPERM, [])
      else
        let fwmark1 :=
          if !fwmark.explicitlySelected && env.isVirtualNetwork fwmark.netId
          then { fwmark with netId := env.getDefaultNetwork }
          else fwmark
        Except.ok ({ fwmark1 with protectedFromVpn := true },
          permission ||| fwmark.permission, [])
  | CmdId.SELECT_FOR_USER =>
      if permission &&& PERMISSION_SYSTEM != PERMISSION_SYSTEM then
        Except.error (-EPERM, [])
      else
        Except.ok ({ fwmark with
                     netId := env.getNetworkForUser command.uid
                     protectedFromVpn := true }, permission, [])
  | CmdId.TAG_SOCKET =>
      let uid := if command.uid == 4294967295 then clientUid else command.uid
      Except.error (env.tagSocket command.trafficCtrlInfo uid clientUid,
        [Effect.tagSocket command.trafficCtrlInfo uid clientUid])
  | CmdId.UNTAG_SOCKET =>
      Except.error (env.untagSocket, [Effect.untagSocket])
  | CmdId.QUERY_USER_ACCESS =>
      Except.error (-EPROTO, [])
  | CmdId.UNKNOWN =>
      Except.error (-EPROTO, [])

/-- `FwmarkServer::processClient`: framing checks, the QUERY_USER_ACCESS
fast path, descriptor and address-family gating, the SO_MARK read, the
per-command dispatch, and the single SO_MARK write-back.  Returns the
response status together with the trace of observable calls. -/
def processClient (env : Env) (req : Request) (sock : SockState) :
    Int × List Effect :=
  match req.recv with
  | RecvResult.err errno => (-errno, [])
  | RecvResult.ok messageLength =>
    if messageLength == 0 then
      (-ESHUTDOWN, [])
    else
      let command := req.command
      let expectedLen := sizeofCommand +
        (if hasDestinationAddress command.cmdId env.redirectSocketCalls then
          sizeofConnectInfo else 0)
      if messageLength != expectedLen then
        (-EBADMSG, [])
      else
        let permission := env.getPermissionForUser req.clientUid
        if command.cmdId == CmdId.QUERY_USER_ACCESS then
          if permission &&& PERMISSION_SYSTEM != PERMISSION_SYSTEM then
            (-EPERM, [])
          else
            (env.checkUserNetworkAccess command.uid command.netId,
             [Effect.checkAccess command.uid command.netId])
        else
          match req.receivedFds with
          | [fd] =>
            if fd < 0 then
              (-EBADF, [])
            else
              match sock.domain with
              | Except.error errno => (-errno, [Effect.getDomain])
              | Except.ok family =>
                if !env.isSupportedFamily family then
                  (-EAFNOSUPPORT, [Effect.getDomain])
                else
                  match sock.mark with
                  | Except.error errno =>
                      (-errno, [Effect.getDomain, Effect.getMark])
                  | Except.ok fwmark =>
                    match dispatch env req.clientUid command req.connectInfo
                        family fwmark permission sock with
                    | Except.error (status, effs) =>
                        (status, Effect.getDomain :: Effect.getMark :: effs)
                    | Except.ok (fwmark1, permission1, effs) =>
                        let fwmark2 :=
                          { fwmark1 with permission := permission1 }
                        match sock.setMarkErrno with
                        | some errno =>
                            (-errno, Effect.getDomain :: Effect.getMark ::
                              (effs ++ [Effect.setMark fwmark2]))
                        | none =>
                            (0, Effect.getDomain :: Effect.getMark ::
                              (effs ++ [Effect.setMark fwmark2]))
          | _ => (-EBADF, [])



/-- Predicate picking out the marker write in an effect trace. -/
def isSetMark : Effect → Bool
  | Effect.setMark _ => true
  | _ => false

/-- Predicate picking out socket-option operations in an effect trace. -/
def isSocketOp : Effect → Bool
  | Effect.getDomain => true
  | Effect.getMark => true
  | Effect.getProtocol => true
  | Effect.setMark _ => true
  | _ => false

/-- The effects produced inside one dispatch branch (before the common
marker write-back). -/
def branchEffects :
    Except (Int × List Effect) (Fwmark × Nat × List Effect) → List Effect
  | Except.error (_, effs) => effs
  | Except.ok (_, _, effs) => effs

/-- A trailer fixture with no destination information. -/
def ci0 : FwmarkConnectInfo := ⟨0, false, 0, 0⟩

/-- A concrete collaborator fixture: redirect mode off, every caller holds
NETWORK permission, access checks succeed, every caller may protect,
network 7 is the only VPN, the default network is 99, and the supported
socket families are AF_INET (2) and AF_INET6 (10). -/
def env0 : Env where
  redirectSocketCalls := false
  getPermissionForUser := fun _ => PERMISSION_NETWORK
  checkUserNetworkAccess := fun _ _ => 0
  canProtect := fun _ => true
  getNetworkForInterface := fun s => 100 + s
  getNetworkForConnect := fun _ => 42
  getDefaultNetwork := 99
  isVirtualNetwork := fun n => n == 7
  getNetworkForUser := fun u => 200 + u
  tagSocket := fun _ _ _ => 0
  untagSocket := 0
  hasNetdEventListener := false
  isSupportedFamily := fun f => f == 2 || f == 10

/-- Like `env0` but callers hold no permission at all. -/
def envPerm0 : Env := { env0 with getPermissionForUser := fun _ => PERMISSION_NONE }

/-- Like `env0` but the per-network access check always fails with -13. -/
def envDeny : Env := { env0 with checkUserNetworkAccess := fun _ _ => -13 }

/-- Like `env0` but callers hold SYSTEM permission. -/
def envSys : Env := { env0 with getPermissionForUser := fun _ => PERMISSION_SYSTEM }

/-- An AF_INET socket fixture whose marker is all-unset and whose
socket-option calls all succeed. -/
def sock0 : SockState := ⟨Except.ok 2, Except.ok ⟨0, false, false, 0⟩, Except.ok 6, none⟩

/-- Like `sock0` but the marker was explicitly selected onto VPN network 7
with SYSTEM permission bits. -/
def sockPrior : SockState := { sock0 with mark := Except.ok ⟨7, true, true, 3⟩ }

/-- Like `sock0` but the socket's address family is AF_UNIX (1), which is
not supported. -/
def sockBadFam : SockState := { sock0 with domain := Except.ok 1 }

/-- Bitmask absorption: a mask is contained in any or-composition with it. -/
theorem land_lor_absorb (a b : Nat) : a &&& (b ||| a) = a := by
  apply Nat.eq_of_testBit_eq
  intro i
  simp only [Nat.testBit_and, Nat.testBit_or]
  cases a.testBit i <;> cases b.testBit i <;> rfl

/-- No dispatch branch itself writes the marker: the only `setMark` in a
trace is the common write-back after the switch. -/
theorem dispatch_no_setMark (env : Env) (clientUid : Nat)
    (command : FwmarkCommand) (connectInfo : FwmarkConnectInfo) (family : Int)
    (fwmark : Fwmark) (permission : Nat) (sock : SockState) :
    (branchEffects (dispatch env clientUid command connectInfo family fwmark
      permission sock)).countP isSetMark = 0 := by
  rcases command with ⟨cid, cuid, cnet, tci⟩
  cases cid <;> simp only [dispatch] <;> (repeat' split) <;>
    simp [branchEffects, isSetMark]

/-- Membership form of `dispatch_no_setMark`. -/
theorem setMark_not_mem_branchEffects (env : Env) (clientUid : Nat)
    (command : FwmarkCommand) (connectInfo : FwmarkConnectInfo) (family : Int)
    (fwmark : Fwmark) (permission : Nat) (sock : SockState) (m : Fwmark) :
    Effect.setMark m ∉ branchEffects (dispatch env clientUid command
      connectInfo family fwmark permission sock) := by
  intro hm
  have h := dispatch_no_setMark env clientUid command connectInfo family
    fwmark permission sock
  have := List.countP_eq_zero.mp h _ hm
  simp [isSetMark] at this

theorem hasDest_ON_ACCEPT (r : Bool) :
    hasDestinationAddress CmdId.ON_ACCEPT r = false := by cases r <;> rfl

theorem hasDest_ON_CONNECT (r : Bool) :
    hasDestinationAddress CmdId.ON_CONNECT r = true := by cases r <;> rfl

theorem hasDest_SELECT_NETWORK (r : Bool) :
    hasDestinationAddress CmdId.SELECT_NETWORK r = false := by cases r <;> rfl

theorem hasDest_PROTECT_FROM_VPN (r : Bool) :
    hasDestinationAddress CmdId.PROTECT_FROM_VPN r = false := by
  cases r <;> rfl

theorem hasDest_QUERY_USER_ACCESS (r : Bool) :
    hasDestinationAddress CmdId.QUERY_USER_ACCESS r = false := by
  cases r <;> rfl

/-- Gate lemma, early-return form: once framing, descriptor, family and
marker-read gates pass, an early-returning dispatch branch determines the
result of `processClient`. -/
theorem processClient_gates_err (env : Env) (uid n : Nat)
    (cmd : FwmarkCommand) (ci : FwmarkConnectInfo) (fd : Int)
    (sock : SockState) (family : Int) (fwmark : Fwmark) (s : Int)
    (effs : List Effect)
    (hlen : n = sizeofCommand + (if hasDestinationAddress cmd.cmdId
      env.redirectSocketCalls then sizeofConnectInfo else 0))
    (hq : cmd.cmdId ≠ CmdId.QUERY_USER_ACCESS)
    (hfd : 0 ≤ fd)
    (hdom : sock.domain = Except.ok family)
    (hfam : env.isSupportedFamily family = true)
    (hmark : sock.mark = Except.ok fwmark)
    (hdisp : dispatch env uid cmd ci family fwmark
      (env.getPermissionForUser uid) sock = Except.error (s, effs)) :
    processClient env ⟨uid, RecvResult.ok n, cmd, ci, [fd]⟩ sock =
      (s, Effect.getDomain :: Effect.getMark :: effs) := by
  have hne : n ≠ 0 := by
    rw [hlen]; unfold sizeofCommand; omega
  have hfd' : ¬ fd < 0 := by omega
  simp only [processClient]
  simp [hne, ← hlen, hq, hfd', hdom, hfam, hmark, hdisp]

/-- Gate lemma, write-back form: once all gates pass and the dispatch
branch falls through, the marker (with the final permission) is written in
one `setsockopt` call and the request succeeds. -/
theorem processClient_gates_ok (env : Env) (uid n : Nat)
    (cmd : FwmarkCommand) (ci : FwmarkConnectInfo) (fd : Int)
    (sock : SockState) (family : Int) (fwmark fw1 : Fwmark) (p1 : Nat)
    (effs : List Effect)
    (hlen : n = sizeofCommand + (if hasDestinationAddress cmd.cmdId
      env.redirectSocketCalls then sizeofConnectInfo else 0))
    (hq : cmd.cmdId ≠ CmdId.QUERY_USER_ACCESS)
    (hfd : 0 ≤ fd)
    (hdom : sock.domain = Except.ok family)
    (hfam : env.isSupportedFamily family = true)
    (hmark : sock.mark = Except.ok fwmark)
    (hset : sock.setMarkErrno = none)
    (hdisp : dispatch env uid cmd ci family fwmark
      (env.getPermissionForUser uid) sock = Except.ok (fw1, p1, effs)) :
    processClient env ⟨uid, RecvResult.ok n, cmd, ci, [fd]⟩ sock =
      (0, Effect.getDomain :: Effect.getMark ::
        (effs ++ [Effect.setMark { fw1 with permission := p1 }])) := by
  have hne : n ≠ 0 := by
    rw [hlen]; unfold sizeofCommand; omega
  have hfd' : ¬ fd < 0 := by omega
  simp only [processClient]
  simp [hne, ← hlen, hq, hfd', hdom, hfam, hmark, hdisp, hset]

/-- Permission handed to the write-back by a fall-through dispatch branch:
or-composed with the prior marker's permission for ON_ACCEPT and
PROTECT_FROM_VPN, the caller's permission alone everywhere else. -/
theorem dispatch_ok_permission (env : Env) (uid : Nat) (cmd : FwmarkCommand)
    (ci : FwmarkConnectInfo) (family : Int) (fwmark : Fwmark)
    (perm : Nat) (sock : SockState) (fw1 : Fwmark) (p1 : Nat)
    (effs : List Effect)
    (h : dispatch env uid cmd ci family fwmark perm sock =
      Except.ok (fw1, p1, effs)) :
    ((cmd.cmdId = CmdId.ON_ACCEPT ∨ cmd.cmdId = CmdId.PROTECT_FROM_VPN) →
      p1 = perm ||| fwmark.permission) ∧
    ((cmd.cmdId = CmdId.ON_CONNECT ∨ cmd.cmdId = CmdId.ON_CONNECT_COMPLETE ∨
      cmd.cmdId = CmdId.SELECT_FOR_USER ∨
      (cmd.cmdId = CmdId.SELECT_NETWORK ∧ cmd.netId ≠ NETID_UNSET)) →
      p1 = perm) := by
  rcases cmd with ⟨cid, cuid, cnet, tci⟩
  cases cid <;> simp only [dispatch] at h <;> (repeat' split at h) <;>
    simp at h <;> obtain ⟨rfl, rfl, rfl⟩ := h <;> constructor <;>
    intro hc <;> simp_all

/-- Any marker write performed by `processClient` happens at most once per
request, and every written value comes from a fall-through dispatch branch
applied to the marker read from the socket, carrying the branch's final
permission. -/
theorem processClient_write_char (env : Env) (req : Request)
    (sock : SockState) :
    ((processClient env req sock).2.countP isSetMark ≤ 1) ∧
    ∀ m : Fwmark, Effect.setMark m ∈ (processClient env req sock).2 →
      ∃ family fwmark fw1 p1 effs,
        sock.domain = Except.ok family ∧
        env.isSupportedFamily family = true ∧
        sock.mark = Except.ok fwmark ∧
        dispatch env req.clientUid req.command req.connectInfo family fwmark
          (env.getPermissionForUser req.clientUid) sock =
          Except.ok (fw1, p1, effs) ∧
        m = { fw1 with permission := p1 } := by
  obtain ⟨uid, recv, cmd, ci, fds⟩ := req
  rcases hpr : processClient env ⟨uid, recv, cmd, ci, fds⟩ sock
    with ⟨status, trace⟩
  simp only [hpr]
  unfold processClient at hpr
  cases recv with
  | err e =>
      cases hpr
      exact ⟨by simp, by simp⟩
  | ok n =>
      dsimp only at hpr
      generalize (if hasDestinationAddress cmd.cmdId env.redirectSocketCalls
        then sizeofConnectInfo else 0) = extra at hpr
      split at hpr
      · cases hpr; exact ⟨by simp, by simp⟩
      · split at hpr
        · cases hpr; exact ⟨by simp, by simp⟩
        · split at hpr
          · split at hpr
            · cases hpr; exact ⟨by simp, by simp⟩
            · cases hpr
              exact ⟨by simp [List.countP_cons, isSetMark], by simp⟩
          · split at hpr
            · rename_i fd hfds
              split at hpr
              · cases hpr; exact ⟨by simp, by simp⟩
              · split at hpr
                · cases hpr
                  exact ⟨by simp [List.countP_cons, isSetMark], by simp⟩
                · rename_i family hdom
                  split at hpr
                  · cases hpr
                    exact ⟨by simp [List.countP_cons, isSetMark], by simp⟩
                  · rename_i hfam
                    split at hpr
                    · cases hpr
                      exact ⟨by simp [List.countP_cons, isSetMark], by simp⟩
                    · rename_i fwmark hmark
                      split at hpr
                      · rename_i s effs hdisp
                        cases hpr
                        have h0 := dispatch_no_setMark env uid cmd ci family
                          fwmark (env.getPermissionForUser uid) sock
                        rw [hdisp] at h0
                        simp only [branchEffects] at h0
                        refine ⟨?_, ?_⟩
                        · simp [List.countP_cons, h0, isSetMark]
                        · intro m hm
                          simp only [List.mem_cons] at hm
                          rcases hm with hm | hm | hm
                          · exact absurd hm (by simp)
                          · exact absurd hm (by simp)
                          · exact absurd hm (by
                              have hnm := setMark_not_mem_branchEffects env
                                uid cmd ci family fwmark
                                (env.getPermissionForUser uid) sock m
                              rw [hdisp] at hnm
                              simpa [branchEffects] using hnm)
                      · rename_i fw1 p1 effs hdisp
                        have h0 := dispatch_no_setMark env uid cmd ci family
                          fwmark (env.getPermissionForUser uid) sock
                        rw [hdisp] at h0
                        simp only [branchEffects] at h0
                        have hcount : (Effect.getDomain :: Effect.getMark ::
                            (effs ++ [Effect.setMark
                              { fw1 with permission := p1 }])).countP
                            isSetMark ≤ 1 := by
                          simp [List.countP_cons, List.countP_append, h0,
                            isSetMark]
                        have hmem : ∀ m : Fwmark, Effect.setMark m ∈
                            Effect.getDomain :: Effect.getMark ::
                            (effs ++ [Effect.setMark
                              { fw1 with permission := p1 }]) →
                            ∃ family2 fwmark2 fw2 p2 effs2,
                              sock.domain = Except.ok family2 ∧
                              env.isSupportedFamily family2 = true ∧
                              sock.mark = Except.ok fwmark2 ∧
                              dispatch env uid cmd ci family2 fwmark2
                                (env.getPermissionForUser uid) sock =
                                Except.ok (fw2, p2, effs2) ∧
                              m = { fw2 with permission := p2 } := by
                          intro m hm
                          simp only [List.mem_cons, List.mem_append,
                            List.mem_singleton] at hm
                          rcases hm with hm | hm | hm | hm | hm
                          · exact absurd hm (by simp)
                          · exact absurd hm (by simp)
                          · exact absurd hm (by
                              have hnm := setMark_not_mem_branchEffects
                                env uid cmd ci family fwmark
                                (env.getPermissionForUser uid) sock m
                              rw [hdisp] at hnm
                              simpa [branchEffects] using hnm)
                          · refine ⟨family, fwmark, fw1, p1, effs, hdom,
                              ?_, hmark, hdisp, ?_⟩
                            · simpa using hfam
                            · injection hm
                          · exact absurd hm (by simp)
                        split at hpr <;> cases hpr <;> exact ⟨hcount, hmem⟩
            · cases hpr; exact ⟨by simp, by simp⟩

/-- C1 (amended): every request performs at most one marker write, carrying
all four fields of the marker in one single socket-option update; and the
written marker of a SELECT_NETWORK transition with the unset sentinel has
netId unset, explicitlySelected false, protectedFromVpn false and
permission NONE.  (The original claim's sentinel-implies-reset invariant
over every write-back command fails, see the counterexample.) -/
theorem marker_write_single_update_and_select_reset (env : Env)
    (req : Request) (sock : SockState) :
    ((processClient env req sock).2.countP isSetMark ≤ 1) ∧
    (∀ m : Fwmark, req.command.cmdId = CmdId.SELECT_NETWORK →
      req.command.netId = NETID_UNSET →
      Effect.setMark m ∈ (processClient env req sock).2 →
      m = ⟨NETID_UNSET, false, false, PERMISSION_NONE⟩) := by
  refine ⟨(processClient_write_char env req sock).1, ?_⟩
  intro m hcid hnet hmem
  obtain ⟨family, fwmark, fw1, p1, effs, hdom, hfam, hmark, hdisp, hm⟩ :=
    (processClient_write_char env req sock).2 m hmem
  simp only [dispatch, hcid, hnet] at hdisp
  simp at hdisp
  obtain ⟨h1, rfl, h3⟩ := hdisp
  rw [hm, ← h1]

/-- C1 counterexample: an ON_ACCEPT request on a fresh all-unset marker by
a caller holding NETWORK permission writes back a marker whose netId is the
unset sentinel while its permission is not NONE, refuting the claimed
invariant that an unset netId forces permission NONE in every written
marker. -/
theorem marker_unset_invariant_counterexample :
    processClient env0 ⟨1000, RecvResult.ok 16, ⟨CmdId.ON_ACCEPT, 0, 0, 0⟩,
      ci0, [3]⟩ sock0 =
      (0, [Effect.getDomain, Effect.getMark,
        Effect.setMark ⟨NETID_UNSET, false, false, PERMISSION_NETWORK⟩]) ∧
    PERMISSION_NETWORK ≠ PERMISSION_NONE := by decide

/-- C1 witness: at a concrete SELECT_NETWORK sentinel request the single
marker write is the full reset value. -/
theorem marker_write_single_update_and_select_reset_witness :
    ((processClient env0 ⟨1000, RecvResult.ok 16,
      ⟨CmdId.SELECT_NETWORK, 0, NETID_UNSET, 0⟩, ci0, [3]⟩
      sockPrior).2.countP isSetMark ≤ 1) ∧
    ((⟨NETID_UNSET, false, false, PERMISSION_NONE⟩ : Fwmark) =
      ⟨NETID_UNSET, false, false, PERMISSION_NONE⟩) :=
  ⟨(marker_write_single_update_and_select_reset env0 ⟨1000, RecvResult.ok 16,
      ⟨CmdId.SELECT_NETWORK, 0, NETID_UNSET, 0⟩, ci0, [3]⟩ sockPrior).1,
   (marker_write_single_update_and_select_reset env0 ⟨1000, RecvResult.ok 16,
      ⟨CmdId.SELECT_NETWORK, 0, NETID_UNSET, 0⟩, ci0, [3]⟩ sockPrior).2
     ⟨NETID_UNSET, false, false, PERMISSION_NONE⟩ rfl rfl (by decide)⟩

/-- C2: an ON_CONNECT request on a marker that is not explicitly selected
writes back a marker whose netId is: the network owning the interface when
the socket family is IPv6 and the destination has a nonzero scope id and
is link-local; otherwise the bypassable-VPN-or-default network of the
caller when the protect bit is clear; otherwise the default network
exactly when the current netId is not a virtual network, the current netId
being kept when it is virtual. -/
theorem onConnect_implicit_netid_selection (env : Env)
    (uid cuid cnet tci : Nat) (ci : FwmarkConnectInfo) (fd : Int)
    (sock : SockState) (family : Int) (fwmark : Fwmark)
    (hfd : 0 ≤ fd)
    (hdom : sock.domain = Except.ok family)
    (hfam : env.isSupportedFamily family = true)
    (hmark : sock.mark = Except.ok fwmark)
    (hset : sock.setMarkErrno = none)
    (hexp : fwmark.explicitlySelected = false) :
    processClient env ⟨uid, RecvResult.ok (sizeofCommand + sizeofConnectInfo),
        ⟨CmdId.ON_CONNECT, cuid, cnet, tci⟩, ci, [fd]⟩ sock =
      (0, [Effect.getDomain, Effect.getMark, Effect.setMark
        { netId :=
            if family = AF_INET6 ∧ ci.sin6ScopeId ≠ 0 ∧
                ci.sin6AddrLinkLocal = true then
              env.getNetworkForInterface ci.sin6ScopeId
            else if fwmark.protectedFromVpn = false then
              env.getNetworkForConnect uid
            else if env.isVirtualNetwork fwmark.netId = false then
              env.getDefaultNetwork
            else fwmark.netId
          explicitlySelected := false
          protectedFromVpn := fwmark.protectedFromVpn
          permission := env.getPermissionForUser uid }]) := by
  have hdisp : dispatch env uid ⟨CmdId.ON_CONNECT, cuid, cnet, tci⟩
      ci family fwmark (env.getPermissionForUser uid) sock =
      Except.ok (⟨(if family = AF_INET6 ∧ ci.sin6ScopeId ≠ 0 ∧
            ci.sin6AddrLinkLocal = true then
            env.getNetworkForInterface ci.sin6ScopeId
          else if fwmark.protectedFromVpn = false then
            env.getNetworkForConnect uid
          else if env.isVirtualNetwork fwmark.netId = false then
            env.getDefaultNetwork
          else fwmark.netId),
        fwmark.explicitlySelected, fwmark.protectedFromVpn,
        fwmark.permission⟩,
        env.getPermissionForUser uid, []) := by
    obtain ⟨fn, fe, fp, fperm⟩ := fwmark
    dsimp only at hexp ⊢
    subst hexp
    by_cases h1 : family = AF_INET6 <;>
      by_cases h2 : ci.sin6ScopeId = 0 <;>
      cases hl : ci.sin6AddrLinkLocal <;>
      cases fp <;>
      cases hv : env.isVirtualNetwork fn <;>
      simp [dispatch, h1, h2, hl, hv]
  have h := processClient_gates_ok env uid (sizeofCommand + sizeofConnectInfo)
    ⟨CmdId.ON_CONNECT, cuid, cnet, tci⟩ ci fd sock family fwmark _ _ _
    (by simp [hasDest_ON_CONNECT]) (by simp) hfd hdom hfam hmark hset hdisp
  rw [h]
  simp [hexp]

/-- C2 witness: a concrete non-explicit ON_CONNECT over AF_INET picks the
bypassable-VPN-or-default network of the caller. -/
theorem onConnect_implicit_netid_selection_witness :
    processClient env0 ⟨1000,
      RecvResult.ok (sizeofCommand + sizeofConnectInfo),
      ⟨CmdId.ON_CONNECT, 0, 0, 0⟩, ci0, [3]⟩ sock0 =
      (0, [Effect.getDomain, Effect.getMark,
        Effect.setMark ⟨42, false, false, PERMISSION_NETWORK⟩]) :=
  (onConnect_implicit_netid_selection env0 1000 0 0 0 ci0 3 sock0 2
    ⟨0, false, false, 0⟩ (by decide) rfl rfl rfl rfl rfl).trans (by decide)

/-- C3 (amended): an ON_CONNECT request on an explicitly selected marker
keeps netId, explicitlySelected and protectedFromVpn unchanged, but the
written permission field is replaced by the caller's current permission
rather than kept.  (The original claim that no field changes fails on the
permission field, see the counterexample.) -/
theorem onConnect_explicit_keeps_routing_fields (env : Env)
    (uid cuid cnet tci : Nat) (ci : FwmarkConnectInfo) (fd : Int)
    (sock : SockState) (family : Int) (fwmark : Fwmark)
    (hfd : 0 ≤ fd)
    (hdom : sock.domain = Except.ok family)
    (hfam : env.isSupportedFamily family = true)
    (hmark : sock.mark = Except.ok fwmark)
    (hset : sock.setMarkErrno = none)
    (hexp : fwmark.explicitlySelected = true) :
    processClient env ⟨uid, RecvResult.ok (sizeofCommand + sizeofConnectInfo),
        ⟨CmdId.ON_CONNECT, cuid, cnet, tci⟩, ci, [fd]⟩ sock =
      (0, [Effect.getDomain, Effect.getMark, Effect.setMark
        { fwmark with permission := env.getPermissionForUser uid }]) := by
  have hdisp : dispatch env uid ⟨CmdId.ON_CONNECT, cuid, cnet, tci⟩
      ci family fwmark (env.getPermissionForUser uid) sock =
      Except.ok (fwmark, env.getPermissionForUser uid, []) := by
    simp [dispatch, hexp]
  have h := processClient_gates_ok env uid (sizeofCommand + sizeofConnectInfo)
    ⟨CmdId.ON_CONNECT, cuid, cnet, tci⟩ ci fd sock family fwmark _ _ _
    (by simp [hasDest_ON_CONNECT]) (by simp) hfd hdom hfam hmark hset hdisp
  rw [h]
  simp

/-- C3 counterexample: an ON_CONNECT on an explicitly selected marker whose
permission field is SYSTEM, issued by a caller with no permission, writes
back a marker that differs from the one read (its permission drops to
NONE), refuting the claim that no field of the marker changes. -/
theorem onConnect_explicit_permission_counterexample :
    processClient envPerm0 ⟨1000, RecvResult.ok 52,
      ⟨CmdId.ON_CONNECT, 0, 0, 0⟩, ci0, [3]⟩ sockPrior =
      (0, [Effect.getDomain, Effect.getMark,
        Effect.setMark ⟨7, true, true, PERMISSION_NONE⟩]) ∧
    (⟨7, true, true, PERMISSION_NONE⟩ : Fwmark) ≠ ⟨7, true, true, 3⟩ := by
  decide

/-- C3 witness: at a concrete explicit marker the routing fields survive an
ON_CONNECT and the permission becomes the caller's. -/
theorem onConnect_explicit_keeps_routing_fields_witness :
    processClient env0 ⟨1000,
      RecvResult.ok (sizeofCommand + sizeofConnectInfo),
      ⟨CmdId.ON_CONNECT, 0, 0, 0⟩, ci0, [3]⟩ sockPrior =
      (0, [Effect.getDomain, Effect.getMark,
        Effect.setMark ⟨7, true, true, PERMISSION_NETWORK⟩]) :=
  (onConnect_explicit_keeps_routing_fields env0 1000 0 0 0 ci0 3 sockPrior 2
    ⟨7, true, true, 3⟩ (by decide) rfl rfl rfl rfl rfl).trans (by decide)

/-- C4 (amended): for every marker write-back, the written permission
contains every bit of the prior marker's permission exactly for ON_ACCEPT
and PROTECT_FROM_VPN (where it is composed by bitwise OR); for ON_CONNECT,
ON_CONNECT_COMPLETE, SELECT_FOR_USER and non-sentinel SELECT_NETWORK the
written permission is replaced by the caller's permission, so prior bits
are not preserved in general.  (The original claim of OR-composition for
every non-reset write-back fails, see the counterexample.) -/
theorem permission_composition_by_command (env : Env) (req : Request)
    (sock : SockState) (fwmark m : Fwmark)
    (hmark : sock.mark = Except.ok fwmark)
    (hmem : Effect.setMark m ∈ (processClient env req sock).2) :
    ((req.command.cmdId = CmdId.ON_ACCEPT ∨
      req.command.cmdId = CmdId.PROTECT_FROM_VPN) →
      fwmark.permission &&& m.permission = fwmark.permission) ∧
    ((req.command.cmdId = CmdId.ON_CONNECT ∨
      req.command.cmdId = CmdId.ON_CONNECT_COMPLETE ∨
      req.command.cmdId = CmdId.SELECT_FOR_USER ∨
      (req.command.cmdId = CmdId.SELECT_NETWORK ∧
        req.command.netId ≠ NETID_UNSET)) →
      m.permission = env.getPermissionForUser req.clientUid) := by
  obtain ⟨family, fwmark2, fw1, p1, effs, hdom, hfam, hmark2, hdisp, hm⟩ :=
    (processClient_write_char env req sock).2 m hmem
  rw [hmark] at hmark2
  injection hmark2 with h
  subst h
  have hperm := dispatch_ok_permission env req.clientUid req.command
    req.connectInfo family fwmark (env.getPermissionForUser req.clientUid)
    sock fw1 p1 effs hdisp
  subst hm
  constructor
  · intro hc
    have h1 := hperm.1 hc
    simp [h1, land_lor_absorb]
  · intro hc
    have h2 := hperm.2 hc
    simp [h2]

/-- C4 counterexample: a non-sentinel SELECT_NETWORK on a marker holding
SYSTEM permission bits, issued by a caller with only NETWORK permission,
writes back permission NETWORK; the prior bits are not contained in the
new value, refuting OR-composition for this write-back. -/
theorem permission_or_composition_counterexample :
    processClient env0 ⟨1000, RecvResult.ok 16,
      ⟨CmdId.SELECT_NETWORK, 0, 5, 0⟩, ci0, [3]⟩ sockPrior =
      (0, [Effect.getDomain, Effect.getMark, Effect.checkAccess 1000 5,
        Effect.setMark ⟨5, true, true, PERMISSION_NETWORK⟩]) ∧
    (3 : Nat) &&& PERMISSION_NETWORK ≠ 3 := by decide

/-- C4 witness: at a concrete ON_ACCEPT write-back the prior permission is
contained in the written permission. -/
theorem permission_composition_by_command_witness :
    (⟨0, false, false, 0⟩ : Fwmark).permission &&&
      (⟨0, false, false, 1⟩ : Fwmark).permission =
      (⟨0, false, false, 0⟩ : Fwmark).permission :=
  (permission_composition_by_command env0 ⟨1000, RecvResult.ok 16,
      ⟨CmdId.ON_ACCEPT, 0, 0, 0⟩, ci0, [3]⟩ sock0 ⟨0, false, false, 0⟩
      ⟨0, false, false, 1⟩ rfl (by decide)).1 (Or.inl rfl)

/-- C5: a SELECT_NETWORK request with the unset sentinel succeeds with
status 0 and writes back the fully reset marker (netId unset, flags false,
permission NONE) for every prior marker state, with no access check
appearing in the trace. -/
theorem selectNetwork_unset_resets (env : Env) (uid cuid tci : Nat)
    (ci : FwmarkConnectInfo) (fd : Int) (sock : SockState) (family : Int)
    (fwmark : Fwmark)
    (hfd : 0 ≤ fd)
    (hdom : sock.domain = Except.ok family)
    (hfam : env.isSupportedFamily family = true)
    (hmark : sock.mark = Except.ok fwmark)
    (hset : sock.setMarkErrno = none) :
    processClient env ⟨uid, RecvResult.ok sizeofCommand,
        ⟨CmdId.SELECT_NETWORK, cuid, NETID_UNSET, tci⟩, ci, [fd]⟩ sock =
      (0, [Effect.getDomain, Effect.getMark,
        Effect.setMark ⟨NETID_UNSET, false, false, PERMISSION_NONE⟩]) := by
  have hdisp : dispatch env uid ⟨CmdId.SELECT_NETWORK, cuid, NETID_UNSET, tci⟩
      ci family fwmark (env.getPermissionForUser uid) sock =
      Except.ok ({ fwmark with
        netId := NETID_UNSET
        explicitlySelected := false
        protectedFromVpn := false }, PERMISSION_NONE, []) := by
    simp [dispatch]
  have h := processClient_gates_ok env uid sizeofCommand
    ⟨CmdId.SELECT_NETWORK, cuid, NETID_UNSET, tci⟩ ci fd sock family fwmark
    _ _ _ (by simp [hasDest_SELECT_NETWORK]) (by simp) hfd hdom hfam hmark
    hset hdisp
  rw [h]
  simp

/-- C5 witness: resetting a marker that was explicitly selected onto a VPN
with SYSTEM bits yields the fully unset marker and status 0. -/
theorem selectNetwork_unset_resets_witness :
    processClient env0 ⟨1000, RecvResult.ok sizeofCommand,
      ⟨CmdId.SELECT_NETWORK, 0, NETID_UNSET, 0⟩, ci0, [3]⟩ sockPrior =
      (0, [Effect.getDomain, Effect.getMark,
        Effect.setMark ⟨NETID_UNSET, false, false, PERMISSION_NONE⟩]) :=
  selectNetwork_unset_resets env0 1000 0 0 ci0 3 sockPrior 2
    ⟨7, true, true, 3⟩ (by decide) rfl rfl rfl rfl

/-- C6: a SELECT_NETWORK request with a non-sentinel netId whose caller
fails the network access check returns the access check's status unchanged
and performs no marker write, leaving the socket's marker as it was. -/
theorem selectNetwork_denied_no_write (env : Env) (uid cuid cnet tci : Nat)
    (ci : FwmarkConnectInfo) (fd : Int) (sock : SockState) (family : Int)
    (fwmark : Fwmark)
    (hfd : 0 ≤ fd)
    (hdom : sock.domain = Except.ok family)
    (hfam : env.isSupportedFamily family = true)
    (hmark : sock.mark = Except.ok fwmark)
    (hnet : cnet ≠ NETID_UNSET)
    (hret : env.checkUserNetworkAccess uid cnet ≠ 0) :
    processClient env ⟨uid, RecvResult.ok sizeofCommand,
        ⟨CmdId.SELECT_NETWORK, cuid, cnet, tci⟩, ci, [fd]⟩ sock =
      (env.checkUserNetworkAccess uid cnet,
       [Effect.getDomain, Effect.getMark, Effect.checkAccess uid cnet]) := by
  have hdisp : dispatch env uid ⟨CmdId.SELECT_NETWORK, cuid, cnet, tci⟩
      ci family fwmark (env.getPermissionForUser uid) sock =
      Except.error (env.checkUserNetworkAccess uid cnet,
        [Effect.checkAccess uid cnet]) := by
    simp [dispatch, hnet, hret]
  have h := processClient_gates_err env uid sizeofCommand
    ⟨CmdId.SELECT_NETWORK, cuid, cnet, tci⟩ ci fd sock family fwmark _ _
    (by simp [hasDest_SELECT_NETWORK]) (by simp) hfd hdom hfam hmark hdisp
  rw [h]

/-- C6 witness: a failing access check (-13) is returned unchanged and the
trace holds no marker write. -/
theorem selectNetwork_denied_no_write_witness :
    processClient envDeny ⟨1000, RecvResult.ok sizeofCommand,
      ⟨CmdId.SELECT_NETWORK, 0, 5, 0⟩, ci0, [3]⟩ sockPrior =
      (-13, [Effect.getDomain, Effect.getMark, Effect.checkAccess 1000 5]) :=
  (selectNetwork_denied_no_write envDeny 1000 0 5 0 ci0 3 sockPrior 2
    ⟨7, true, true, 3⟩ (by decide) rfl rfl rfl (by decide)
    (by decide)).trans (by decide)

/-- C7: a PROTECT_FROM_VPN request is refused with PermissionDenied and no
marker write when the caller cannot protect; otherwise the written marker
has protectedFromVpn true, its netId is the default network when the prior
marker was not explicit and sat on a virtual network, and its netId is
unchanged when the prior marker was explicitly selected. -/
theorem protectFromVpn_behavior (env : Env) (uid cuid cnet tci : Nat)
    (ci : FwmarkConnectInfo) (fd : Int) (sock : SockState) (family : Int)
    (fwmark : Fwmark)
    (hfd : 0 ≤ fd)
    (hdom : sock.domain = Except.ok family)
    (hfam : env.isSupportedFamily family = true)
    (hmark : sock.mark = Except.ok fwmark) :
    (env.canProtect uid = false →
      processClient env ⟨uid, RecvResult.ok sizeofCommand,
          ⟨CmdId.PROTECT_FROM_VPN, cuid, cnet, tci⟩, ci, [fd]⟩ sock =
        (-EPERM, [Effect.getDomain, Effect.getMark])) ∧
    (env.canProtect uid = true → sock.setMarkErrno = none →
      processClient env ⟨uid, RecvResult.ok sizeofCommand,
          ⟨CmdId.PROTECT_FROM_VPN, cuid, cnet, tci⟩, ci, [fd]⟩ sock =
        (0, [Effect.getDomain, Effect.getMark, Effect.setMark
          { netId := if fwmark.explicitlySelected = false ∧
                env.isVirtualNetwork fwmark.netId = true then
                env.getDefaultNetwork else fwmark.netId
            explicitlySelected := fwmark.explicitlySelected
            protectedFromVpn := true
            permission :=
              env.getPermissionForUser uid ||| fwmark.permission }])) := by
  constructor
  · intro hcp
    have hdisp : dispatch env uid ⟨CmdId.PROTECT_FROM_VPN, cuid, cnet, tci⟩
        ci family fwmark (env.getPermissionForUser uid) sock =
        Except.error (-EPERM, []) := by
      simp [dispatch, hcp]
    have h := processClient_gates_err env uid sizeofCommand
      ⟨CmdId.PROTECT_FROM_VPN, cuid, cnet, tci⟩ ci fd sock family fwmark _ _
      (by simp [hasDest_PROTECT_FROM_VPN]) (by simp) hfd hdom hfam hmark hdisp
    rw [h]
  · intro hcp hset
    have hdisp : dispatch env uid ⟨CmdId.PROTECT_FROM_VPN, cuid, cnet, tci⟩
        ci family fwmark (env.getPermissionForUser uid) sock =
        Except.ok (⟨(if fwmark.explicitlySelected = false ∧
            env.isVirtualNetwork fwmark.netId = true then
            env.getDefaultNetwork else fwmark.netId),
          fwmark.explicitlySelected, true, fwmark.permission⟩,
          env.getPermissionForUser uid ||| fwmark.permission, []) := by
      cases he : fwmark.explicitlySelected <;>
        cases hv : env.isVirtualNetwork fwmark.netId <;>
        simp [dispatch, hcp, he, hv]
    have h := processClient_gates_ok env uid sizeofCommand
      ⟨CmdId.PROTECT_FROM_VPN, cuid, cnet, tci⟩ ci fd sock family fwmark _ _ _
      (by simp [hasDest_PROTECT_FROM_VPN]) (by simp) hfd hdom hfam hmark
      hset hdisp
    rw [h]
    simp

/-- C7 witness: protecting an explicitly selected marker keeps its netId
and sets the protect bit. -/
theorem protectFromVpn_behavior_witness :
    processClient env0 ⟨1000, RecvResult.ok sizeofCommand,
      ⟨CmdId.PROTECT_FROM_VPN, 0, 0, 0⟩, ci0, [3]⟩ sockPrior =
      (0, [Effect.getDomain, Effect.getMark,
        Effect.setMark ⟨7, true, true, 3⟩]) :=
  ((protectFromVpn_behavior env0 1000 0 0 0 ci0 3 sockPrior 2
    ⟨7, true, true, 3⟩ (by decide) rfl rfl rfl).2 rfl rfl).trans (by decide)

/-- C8: a zero-byte read fails with ConnectionClosed (-ESHUTDOWN); the
expected length is sizeof(Command) plus sizeof(ConnectInfo) exactly when
the command requires a destination under the redirect-mode configuration
(ON_SENDTO, ON_CONNECT, ON_SENDMSG, ON_SENDMMSG, ON_CONNECT_COMPLETE with
redirect mode on; only ON_CONNECT and ON_CONNECT_COMPLETE with it off);
and any other byte count, short or carrying an unexpected trailer, is
rejected with MalformedMessage (-EBADMSG). -/
theorem framing_validation (env : Env) (req : Request) (sock : SockState) :
    (req.recv = RecvResult.ok 0 →
      processClient env req sock = (-ESHUTDOWN, [])) ∧
    (∀ n : Nat, req.recv = RecvResult.ok n → n ≠ 0 →
      n ≠ sizeofCommand + (if hasDestinationAddress req.command.cmdId
        env.redirectSocketCalls then sizeofConnectInfo else 0) →
      processClient env req sock = (-EBADMSG, [])) ∧
    (∀ c : CmdId, ∀ r : Bool, hasDestinationAddress c r = true ↔
      ((r = true ∧ (c = CmdId.ON_SENDTO ∨ c = CmdId.ON_CONNECT ∨
        c = CmdId.ON_SENDMSG ∨ c = CmdId.ON_SENDMMSG ∨
        c = CmdId.ON_CONNECT_COMPLETE)) ∨
       (r = false ∧ (c = CmdId.ON_CONNECT ∨
        c = CmdId.ON_CONNECT_COMPLETE)))) := by
  refine ⟨?_, ?_, by decide⟩
  · intro h
    obtain ⟨uid, recv, cmd, ci, fds⟩ := req
    simp only at h
    subst h
    simp [processClient]
  · intro n h hne hlen
    obtain ⟨uid, recv, cmd, ci, fds⟩ := req
    simp only at h hlen
    subst h
    simp only [processClient]
    simp [hne, hlen]

/-- C8 witness: a 5-byte ON_ACCEPT message is rejected as malformed. -/
theorem framing_validation_witness :
    processClient env0 ⟨1000, RecvResult.ok 5, ⟨CmdId.ON_ACCEPT, 0, 0, 0⟩,
      ci0, [3]⟩ sock0 = (-EBADMSG, []) :=
  (framing_validation env0 ⟨1000, RecvResult.ok 5, ⟨CmdId.ON_ACCEPT, 0, 0, 0⟩,
    ci0, [3]⟩ sock0).2.1 5 rfl (by decide) (by decide)

/-- C9: a well-framed QUERY_USER_ACCESS request returns PermissionDenied
when the caller lacks SYSTEM permission, and otherwise exactly the status
of the external checkUserNetworkAccess(targetUid, netId); in both cases it
terminates with no socket-option operation in its trace and with a result
independent of the received descriptors and of the socket state. -/
theorem query_user_access_isolated (env : Env) (uid cuid cnet tci : Nat)
    (ci : FwmarkConnectInfo) (fds : List Int) (sock : SockState) :
    (processClient env ⟨uid, RecvResult.ok sizeofCommand,
        ⟨CmdId.QUERY_USER_ACCESS, cuid, cnet, tci⟩, ci, fds⟩ sock =
      (if env.getPermissionForUser uid &&& PERMISSION_SYSTEM =
          PERMISSION_SYSTEM
       then (env.checkUserNetworkAccess cuid cnet,
             [Effect.checkAccess cuid cnet])
       else (-EPERM, []))) ∧
    ∀ e ∈ (processClient env ⟨uid, RecvResult.ok sizeofCommand,
        ⟨CmdId.QUERY_USER_ACCESS, cuid, cnet, tci⟩, ci, fds⟩ sock).2,
      isSocketOp e = false := by
  have hmain : processClient env ⟨uid, RecvResult.ok sizeofCommand,
      ⟨CmdId.QUERY_USER_ACCESS, cuid, cnet, tci⟩, ci, fds⟩ sock =
      (if env.getPermissionForUser uid &&& PERMISSION_SYSTEM =
          PERMISSION_SYSTEM
       then (env.checkUserNetworkAccess cuid cnet,
             [Effect.checkAccess cuid cnet])
       else (-EPERM, [])) := by
    simp only [processClient]
    by_cases hp : env.getPermissionForUser uid &&& PERMISSION_SYSTEM =
        PERMISSION_SYSTEM <;>
      simp [hasDest_QUERY_USER_ACCESS, sizeofCommand, hp]
  refine ⟨hmain, ?_⟩
  rw [hmain]
  by_cases hp : env.getPermissionForUser uid &&& PERMISSION_SYSTEM =
      PERMISSION_SYSTEM <;>
    simp [hp, isSocketOp]

/-- C9 witness: a SYSTEM caller receives the access check's status with no
descriptor passed and no socket-option operation. -/
theorem query_user_access_isolated_witness :
    (processClient envSys ⟨1000, RecvResult.ok sizeofCommand,
      ⟨CmdId.QUERY_USER_ACCESS, 55, 9, 0⟩, ci0, []⟩ sock0 =
      (0, [Effect.checkAccess 55 9])) ∧
    isSocketOp (Effect.checkAccess 55 9) = false :=
  ⟨((query_user_access_isolated envSys 1000 55 9 0 ci0 [] sock0).1).trans
     (by decide),
   (query_user_access_isolated envSys 1000 55 9 0 ci0 [] sock0).2
     (Effect.checkAccess 55 9) (by decide)⟩

/-- C10: for every well-framed command other than QUERY_USER_ACCESS, the
engine requires exactly one valid received descriptor (else BadDescriptor),
then a supported socket address family (else UnsupportedAddressFamily, with
a failing SO_DOMAIN read surfacing its own errno), then a successful
marker read (else the read's errno), before any per-command dispatch; in
each failing gate the trace shows no traffic-tag call and the status is
not success. -/
theorem descriptor_family_marker_gating (env : Env) (uid n : Nat)
    (cmd : FwmarkCommand) (ci : FwmarkConnectInfo) (fds : List Int)
    (sock : SockState)
    (hlen : n = sizeofCommand + (if hasDestinationAddress cmd.cmdId
      env.redirectSocketCalls then sizeofConnectInfo else 0))
    (hq : cmd.cmdId ≠ CmdId.QUERY_USER_ACCESS) :
    (fds.length ≠ 1 →
      processClient env ⟨uid, RecvResult.ok n, cmd, ci, fds⟩ sock =
        (-EBADF, [])) ∧
    (∀ fd : Int, fds = [fd] → fd < 0 →
      processClient env ⟨uid, RecvResult.ok n, cmd, ci, fds⟩ sock =
        (-EBADF, [])) ∧
    (∀ fd : Int, fds = [fd] → 0 ≤ fd → ∀ e : Int,
      sock.domain = Except.error e →
      processClient env ⟨uid, RecvResult.ok n, cmd, ci, fds⟩ sock =
        (-e, [Effect.getDomain])) ∧
    (∀ fd : Int, fds = [fd] → 0 ≤ fd → ∀ family : Int,
      sock.domain = Except.ok family →
      env.isSupportedFamily family = false →
      processClient env ⟨uid, RecvResult.ok n, cmd, ci, fds⟩ sock =
        (-EAFNOSUPPORT, [Effect.getDomain])) ∧
    (∀ fd : Int, fds = [fd] → 0 ≤ fd → ∀ family : Int,
      sock.domain = Except.ok family →
      env.isSupportedFamily family = true → ∀ e : Int,
      sock.mark = Except.error e →
      processClient env ⟨uid, RecvResult.ok n, cmd, ci, fds⟩ sock =
        (-e, [Effect.getDomain, Effect.getMark])) := by
  have hne : n ≠ 0 := by rw [hlen]; unfold sizeofCommand; omega
  refine ⟨?_, ?_, ?_, ?_, ?_⟩
  · intro hfds
    simp only [processClient]
    rcases fds with _ | ⟨fd, _ | ⟨b, t⟩⟩
    · simp [hne, ← hlen, hq]
    · exact absurd rfl hfds
    · simp [hne, ← hlen, hq]
  · intro fd hfds hneg
    subst hfds
    simp only [processClient]
    simp [hne, ← hlen, hq, hneg]
  · intro fd hfds hpos e hdom
    subst hfds
    have hfd' : ¬ fd < 0 := by omega
    simp only [processClient]
    simp [hne, ← hlen, hq, hfd', hdom]
  · intro fd hfds hpos family hdom hfam
    subst hfds
    have hfd' : ¬ fd < 0 := by omega
    simp only [processClient]
    simp [hne, ← hlen, hq, hfd', hdom, hfam]
  · intro fd hfds hpos family hdom hfam e hmark
    subst hfds
    have hfd' : ¬ fd < 0 := by omega
    simp only [processClient]
    simp [hne, ← hlen, hq, hfd', hdom, hfam, hmark]

/-- C10 witness: UNTAG_SOCKET on an AF_UNIX socket fails with
UnsupportedAddressFamily and never reaches the traffic-tag collaborator. -/
theorem descriptor_family_marker_gating_witness :
    processClient env0 ⟨1000, RecvResult.ok sizeofCommand,
      ⟨CmdId.UNTAG_SOCKET, 0, 0, 0⟩, ci0, [3]⟩ sockBadFam =
      (-EAFNOSUPPORT, [Effect.getDomain]) :=
  (descriptor_family_marker_gating env0 1000 sizeofCommand
    ⟨CmdId.UNTAG_SOCKET, 0, 0, 0⟩ ci0 [3] sockBadFam (by decide)
    (by decide)).2.2.2.1 3 rfl (by decide) 1 rfl rfl

end FwmarkServer
